import Mathlib

/-!
Verification of the plant models in `src/classes/Systems.py`:
the `Trolley` (mass-spring-damper driven by a force) and the
`ContinuousTankHeating` (first-order thermal mixing tank driven by a
temperature setpoint), together with the abstract `BaseSystem` contract.

Scalars are embedded as rationals; each Python method becomes a pure
function from the instance state to the updated instance state.
-/

/-- State of a `Trolley` instance: every attribute set in `Trolley.__init__`. -/
structure Trolley where
  mass : ℚ
  friction : ℚ
  spring_constant : ℚ
  dt : ℚ
  position : ℚ
  delta_position : ℚ
  velocity : ℚ
  F : ℚ
deriving DecidableEq, Repr

namespace Trolley

/-- `Trolley.__init__(mass, friction, dt)`: `spring_constant = 50`, kinematic
state zeroed, `F = 50`. -/
def init (mass friction dt : ℚ) : Trolley :=
  { mass := mass
    friction := friction
    spring_constant := 50
    dt := dt
    position := 0
    delta_position := 0
    velocity := 0
    F := 50 }

/-- `Trolley.apply_control(control_output, distrubance)`: forward-Euler step
`a = F/m - friction*v/m - k*delta/m`; `v += a*dt`; local
`position = self.position + v*dt`; `delta_position = position - self.position`;
`self.position = position`. -/
def apply_control (t : Trolley) (control_output distrubance : ℚ) : Trolley :=
  let F := control_output
  let acceleration := F / t.mass - t.friction * t.velocity / t.mass
      - t.spring_constant * t.delta_position / t.mass
  let velocity := t.velocity + acceleration * t.dt
  let position := t.position + velocity * t.dt
  let delta_position := position - t.position
  { t with velocity := velocity, delta_position := delta_position, position := position }

/-- `Trolley.get_position()`: returns `self.position`; the instance is untouched,
so the pair carries the (unchanged) state alongside the result. -/
def get_position (t : Trolley) : ℚ × Trolley :=
  (t.position, t)

/-- `Trolley.get_U()`: returns `(position, position/dt, position/dt**2)`;
the instance is untouched. -/
def get_U (t : Trolley) : (ℚ × ℚ × ℚ) × Trolley :=
  ((t.position, t.position / t.dt, t.position / t.dt ^ 2), t)

/-- `Trolley.reset()`: zeroes `position`, `velocity`, `delta_position`. -/
def reset (t : Trolley) : Trolley :=
  { t with position := 0, velocity := 0, delta_position := 0 }

end Trolley

/-- State of a `ContinuousTankHeating` instance: every attribute set in its
`__init__`. -/
structure ContinuousTankHeating where
  dt : ℚ
  Tf : ℚ
  T : ℚ
  epsilon : ℚ
  tau : ℚ
  Q : ℚ
deriving DecidableEq, Repr

namespace ContinuousTankHeating

/-- `ContinuousTankHeating.__init__(dt)`: `Tf = 300`, `T = 300`, `epsilon = 1`,
`tau = 4`, `Q = 2`. -/
def init (dt : ℚ) : ContinuousTankHeating :=
  { dt := dt, Tf := 300, T := 300, epsilon := 1, tau := 4, Q := 2 }

/-- `ContinuousTankHeating.update(control_output, distrubance)`:
`Tq = control_output`;
`dTdt = 1/(1+epsilon) * (1/tau * (Tf - T) + Q * (Tq - T))`; `T += dTdt * dt`. -/
def update (s : ContinuousTankHeating) (control_output distrubance : ℚ) :
    ContinuousTankHeating :=
  let Tq := control_output
  let dTdt := 1 / (1 + s.epsilon) * (1 / s.tau * (s.Tf - s.T) + s.Q * (Tq - s.T))
  { s with T := s.T + dTdt * s.dt }

/-- `ContinuousTankHeating.get_position()`: returns `self.T`; the instance is
untouched. -/
def get_position (s : ContinuousTankHeating) : ℚ × ContinuousTankHeating :=
  (s.T, s)

end ContinuousTankHeating

/-- The sequence of attribute writes `Trolley.apply_control` performs, in
source order: `self.velocity += ...`, then `self.delta_position = ...`, then
`self.position = ...` (the new position value is held in a local variable
before either of the last two writes). -/
def Trolley.apply_control_writes : List String :=
  ["velocity", "delta_position", "position"]

/-- The abstract methods declared (with `@abstractmethod`) on `BaseSystem`. -/
def BaseSystem.abstractMethods : List String :=
  ["apply_control", "get_position"]

/-- The methods the `Trolley` class body defines. -/
def Trolley.methodNames : List String :=
  ["__init__", "apply_control", "get_position", "get_U", "reset"]

/-- The methods the `ContinuousTankHeating` class body defines. -/
def ContinuousTankHeating.methodNames : List String :=
  ["__init__", "update", "get_position"]

/-- Trajectory of the tank temperature under a constant setpoint `Tq`:
`tankSeq dt Tq n` is `T` after `n` calls to `update(Tq)` on a freshly
constructed `ContinuousTankHeating(dt)`. -/
def tankSeq (dt Tq : ℚ) (n : ℕ) : ℚ :=
  ((fun s => ContinuousTankHeating.update s Tq 0)^[n] (ContinuousTankHeating.init dt)).T

/-- Claim C1 fails as stated on the mutation order: the source writes
`velocity`, then `delta_position`, then `position`, not `velocity`,
`position`, `delta_position`. -/
theorem trolley_write_order_counterexample :
    Trolley.apply_control_writes ≠ ["velocity", "position", "delta_position"] := by
  decide

/-- Claim C1, amended on the mutation order only: one call to
`Trolley.apply_control` with input `F_in` maps the state by exactly
`a = F_in/m - friction*v/m - k*delta/m`; `v' = v + a*dt`; `x' = x + v'*dt`;
`delta' = x' - x` (old `x`), the spring term reading the previous step's
`delta_position`, no other field changing, and the fields written in source
order `velocity`, `delta_position`, `position`. -/
theorem trolley_apply_control_spec :
    Trolley.apply_control_writes = ["velocity", "delta_position", "position"] ∧
    ∀ (t : Trolley) (F_in d : ℚ),
    t.apply_control F_in d =
      { t with
        velocity := t.velocity +
          (F_in / t.mass - t.friction * t.velocity / t.mass
            - t.spring_constant * t.delta_position / t.mass) * t.dt
        position := t.position +
          (t.velocity +
            (F_in / t.mass - t.friction * t.velocity / t.mass
              - t.spring_constant * t.delta_position / t.mass) * t.dt) * t.dt
        delta_position :=
          (t.position +
            (t.velocity +
              (F_in / t.mass - t.friction * t.velocity / t.mass
                - t.spring_constant * t.delta_position / t.mass) * t.dt) * t.dt)
            - t.position } :=
  ⟨rfl, fun _ _ _ => rfl⟩

/-- Claim C3: with `mass=1, friction=0, dt=1` and zeroed initial state,
`apply_control(50)` yields velocity, position, delta_position all `50`, and a
subsequent `apply_control(0)` yields velocity exactly `-2450`. -/
theorem trolley_two_step_values :
    (((Trolley.init 1 0 1).apply_control 50 0).velocity = 50 ∧
      ((Trolley.init 1 0 1).apply_control 50 0).position = 50 ∧
      ((Trolley.init 1 0 1).apply_control 50 0).delta_position = 50) ∧
    (((Trolley.init 1 0 1).apply_control 50 0).apply_control 0 0).velocity = -2450 := by
  norm_num [Trolley.apply_control, Trolley.init]

/-- Claim C5: for both plants, the disturbance argument has no effect: the
state after one step with disturbance `d1` equals the state after one step
with disturbance `d2`, for every state and control input. -/
theorem disturbance_noninterference :
    (∀ (t : Trolley) (u d1 d2 : ℚ), t.apply_control u d1 = t.apply_control u d2) ∧
    (∀ (s : ContinuousTankHeating) (u d1 d2 : ℚ), s.update u d1 = s.update u d2) :=
  ⟨fun _ _ _ _ => rfl, fun _ _ _ _ => rfl⟩

/-- Claim C10: after every `apply_control` call, `delta_position` equals the
post-update `velocity` times `dt`. -/
theorem trolley_delta_eq_velocity_dt (t : Trolley) (u d : ℚ) :
    (t.apply_control u d).delta_position = (t.apply_control u d).velocity * t.dt := by
  simp [Trolley.apply_control]

/-- Claim C2: one `update` call on a tank with the default constants
(`Tf = 300`, `epsilon = 1`, `tau = 4`, `Q = 2`) and temperature `T` sets `T`
to `T + dt * (1/(1+epsilon)) * ((1/tau)*(Tf - T) + Q*(Tq - T))` and changes
no other field. -/
theorem tank_update_spec (dt T Tq d : ℚ) :
    ContinuousTankHeating.update { ContinuousTankHeating.init dt with T := T } Tq d =
      { ContinuousTankHeating.init dt with
        T := T + dt * (1 / (1 + 1)) * (1 / 4 * (300 - T) + 2 * (Tq - T)) } := by
  simp only [ContinuousTankHeating.update, ContinuousTankHeating.init,
    ContinuousTankHeating.mk.injEq, true_and, and_true]
  ring

/-- Claim C4: the abstract `BaseSystem` contract requires `apply_control`, the
`Trolley` class defines it, but the `ContinuousTankHeating` class body does
not define any method named `apply_control` (its step method is `update`). -/
theorem tank_lacks_apply_control :
    "apply_control" ∈ BaseSystem.abstractMethods ∧
    "apply_control" ∈ Trolley.methodNames ∧
    "apply_control" ∉ ContinuousTankHeating.methodNames := by
  decide

theorem trolley_reset_zero_step (t : Trolley) : t.reset.apply_control 0 0 = t.reset := by
  simp [Trolley.apply_control, Trolley.reset]

/-- Claim C7: from a freshly constructed or `reset()` Trolley, any number of
`apply_control(0, 0)` calls leaves the state unchanged
(`position = velocity = delta_position = 0`). -/
theorem trolley_zero_input_fixed_point :
    (∀ (m fr dt : ℚ), 0 < m → ∀ n : ℕ,
      (fun s : Trolley => s.apply_control 0 0)^[n] (Trolley.init m fr dt) =
        Trolley.init m fr dt) ∧
    (∀ t : Trolley, 0 < t.mass → ∀ n : ℕ,
      (fun s : Trolley => s.apply_control 0 0)^[n] t.reset = t.reset) := by
  constructor
  · intro m fr dt _ n
    have h : Trolley.init m fr dt = (Trolley.init m fr dt).reset := rfl
    rw [h]
    exact Function.iterate_fixed (trolley_reset_zero_step _) n
  · intro t _ n
    exact Function.iterate_fixed (trolley_reset_zero_step t) n

theorem trolley_zero_input_fixed_point_witness :
    (fun s : Trolley => s.apply_control 0 0)^[3] (Trolley.init 1 0 1) =
      Trolley.init 1 0 1 :=
  trolley_zero_input_fixed_point.1 1 0 1 (by norm_num) 3

/-- Claim C8: `reset()` zeroes `position`, `velocity`, `delta_position`,
leaves `mass`, `friction`, `spring_constant`, `dt`, `F` unchanged, and is
idempotent. -/
theorem trolley_reset_spec (t : Trolley) :
    t.reset.position = 0 ∧ t.reset.velocity = 0 ∧ t.reset.delta_position = 0 ∧
    t.reset.mass = t.mass ∧ t.reset.friction = t.friction ∧
    t.reset.spring_constant = t.spring_constant ∧ t.reset.dt = t.dt ∧
    t.reset.F = t.F ∧ t.reset.reset = t.reset :=
  ⟨rfl, rfl, rfl, rfl, rfl, rfl, rfl, rfl, rfl⟩

/-- Claim C9: `get_U()` returns `(position, position/dt, position/dt^2)`
recomputed from the current state, its first component equals the value
`get_position()` returns, and neither call changes the state. -/
theorem trolley_get_U_spec (t : Trolley) :
    t.get_U.1 = (t.position, t.position / t.dt, t.position / t.dt ^ 2) ∧
    t.get_U.1.1 = t.get_position.1 ∧
    t.get_U.2 = t ∧ t.get_position.2 = t :=
  ⟨rfl, rfl, rfl, rfl⟩

theorem tankState_eq (dt Tq : ℚ) (n : ℕ) :
    (fun s => ContinuousTankHeating.update s Tq 0)^[n] (ContinuousTankHeating.init dt) =
      { ContinuousTankHeating.init dt with T := tankSeq dt Tq n } := by
  induction n with
  | zero => rfl
  | succ n ih =>
    have h : tankSeq dt Tq (n + 1) =
        (ContinuousTankHeating.update
          ((fun s => ContinuousTankHeating.update s Tq 0)^[n]
            (ContinuousTankHeating.init dt)) Tq 0).T := by
      unfold tankSeq
      rw [Function.iterate_succ_apply']
    rw [Function.iterate_succ_apply', ih, h, ih]
    rfl

theorem tankSeq_succ (dt Tq : ℚ) (n : ℕ) :
    tankSeq dt Tq (n + 1) =
      tankSeq dt Tq n +
        1 / (1 + 1) * (1 / 4 * (300 - tankSeq dt Tq n) + 2 * (Tq - tankSeq dt Tq n)) * dt := by
  unfold tankSeq
  rw [Function.iterate_succ_apply', tankState_eq]
  rfl

theorem tankSeq_400_closed_form (dt : ℚ) (n : ℕ) :
    tankSeq dt 400 n = 3500 / 9 - 800 / 9 * (1 - 9 * dt / 8) ^ n := by
  induction n with
  | zero => norm_num [tankSeq, ContinuousTankHeating.init]
  | succ n ih =>
    rw [tankSeq_succ, ih]
    ring

/-- Claim C6 fails as stated: with step size `dt = 2`, the temperature after
one `update(400)` call is `500`, overshooting `400`, and the next value
(`250`) breaks monotonicity. -/
theorem tank_overshoot_counterexample :
    tankSeq 2 400 1 = 500 ∧
    ¬ tankSeq 2 400 1 < 400 ∧
    ¬ tankSeq 2 400 1 ≤ tankSeq 2 400 2 := by
  rw [tankSeq_400_closed_form, tankSeq_400_closed_form]
  norm_num

/-- Claim C6, amended with the step-size bound `0 < dt ≤ 8/9` that the claim
omits: the temperature sequence under `update(400)` from `T = 300` is
monotonically non-decreasing, each value after the first call lies strictly
between 300 and 400, and the sequence converges to `3500/9`, a limit strictly
between 300 and 400. -/
theorem tank_monotone_bounded_convergent (dt : ℚ) (h0 : 0 < dt) (h1 : dt ≤ 8 / 9) :
    (∀ n : ℕ, tankSeq dt 400 n ≤ tankSeq dt 400 (n + 1)) ∧
    (∀ n : ℕ, 1 ≤ n → 300 < tankSeq dt 400 n ∧ tankSeq dt 400 n < 400) ∧
    ((300 : ℚ) < 3500 / 9 ∧ (3500 : ℚ) / 9 < 400 ∧
      ∀ ε : ℚ, 0 < ε → ∃ N : ℕ, ∀ n : ℕ, N ≤ n →
        |tankSeq dt 400 n - 3500 / 9| < ε) := by
  set r : ℚ := 1 - 9 * dt / 8 with hr
  have hr0 : 0 ≤ r := by
    rw [hr]
    linarith
  have hr1 : r < 1 := by
    rw [hr]
    linarith
  refine ⟨?_, ?_, by norm_num, by norm_num, ?_⟩
  · intro n
    rw [tankSeq_400_closed_form, tankSeq_400_closed_form]
    have key : r ^ (n + 1) ≤ r ^ n := by
      calc r ^ (n + 1) = r ^ n * r := pow_succ r n
        _ ≤ r ^ n * 1 := mul_le_mul_of_nonneg_left hr1.le (pow_nonneg hr0 n)
        _ = r ^ n := mul_one _
    linarith
  · intro n hn
    rw [tankSeq_400_closed_form]
    have hlt : r ^ n < 1 := pow_lt_one₀ hr0 hr1 (by omega)
    have hge : 0 ≤ r ^ n := pow_nonneg hr0 n
    constructor
    · nlinarith
    · nlinarith
  · intro ε hε
    obtain ⟨N, hN⟩ := exists_pow_lt_of_lt_one (show (0 : ℚ) < 9 * ε / 800 by linarith) hr1
    refine ⟨N, fun n hn => ?_⟩
    rw [tankSeq_400_closed_form]
    have hle : r ^ n ≤ r ^ N := pow_le_pow_of_le_one hr0 hr1.le hn
    have hge : 0 ≤ r ^ n := pow_nonneg hr0 n
    rw [abs_lt]
    constructor
    · nlinarith
    · nlinarith

theorem tank_monotone_bounded_convergent_witness :
    tankSeq (1 / 2) 400 0 ≤ tankSeq (1 / 2) 400 1 ∧
    (300 < tankSeq (1 / 2) 400 1 ∧ tankSeq (1 / 2) 400 1 < 400) :=
  ⟨(tank_monotone_bounded_convergent (1 / 2) (by norm_num) (by norm_num)).1 0,
    (tank_monotone_bounded_convergent (1 / 2) (by norm_num) (by norm_num)).2.1 1 le_rfl⟩
